import Mathlib

/-!
Verification of the EarthworkCrossSection module.

The Python module defines a dataclass EarthworkCrossSection with fields
position, cut, fill (all real-valued) and a private field holding a station
label string.  Real arithmetic is modelled with the rationals so every
definition stays executable.  Python string formatting is modelled value-wise:
the integer format code of width two applied to the station addon is defined
only when the addon is an integral value, since Python raises a ValueError
when that format code meets a float object.
-/

set_option autoImplicit false

/-- Zero-padding of an integer to a given total width, as Python does with the
zero fill flag: the minus sign, when present, comes before the padding zeros. -/
def zeroPad (w : Nat) (n : Int) : String :=
  if n < 0 then
    let s := toString (-n)
    "-" ++ String.mk (List.replicate (w - 1 - s.length) '0') ++ s
  else
    let s := toString n
    String.mk (List.replicate (w - s.length) '0') ++ s

/-- Round a rational to the nearest integer, ties going to the even integer,
as Python float formatting with precision zero does. -/
def roundHalfEven (x : ℚ) : Int :=
  let f := ⌊x⌋
  let frac := x - f
  if frac < 1/2 then f
  else if 1/2 < frac then f + 1
  else if f % 2 = 0 then f else f + 1

/-- Python format code of width two for integers (zero-padded, signed). -/
def format02d (n : Int) : String := zeroPad 2 n

/-- Python float format of width three and precision zero: round to the
nearest integer (ties to even) and zero-pad to width three. -/
def format03f (x : ℚ) : String := zeroPad 3 (roundHalfEven x)

/-- The station label computed in the dataclass post-init hook: the station
number is the floor of position over one hundred, the addon is the remaining
part, formatted with the integer format code of width two.  The result is
none when the addon is not an integral value, since Python raises a
ValueError in that case (the integer format code rejects float objects). -/
def mkStationLabel (position : ℚ) : Option String :=
  let station_num : Int := ⌊position / 100⌋
  let station_addon : ℚ := position - station_num * 100
  if station_addon.den = 1 then
    some (toString station_num ++ "+" ++ format02d station_addon.num)
  else
    none

/-- The EarthworkCrossSection dataclass: a station position in feet, cut and
fill cross-sectional areas in square feet, and the station label string. -/
structure EarthworkCrossSection where
  position : ℚ
  cut : ℚ
  fill : ℚ
  _station : String
deriving DecidableEq

namespace EarthworkCrossSection

/-- Construction of the dataclass followed by its post-init hook: when a
station label is supplied it is stored as given and the derivation is
skipped; otherwise the label is derived from the position, which can fail
(see mkStationLabel). -/
def make (position cut fill : ℚ) (st : Option String) : Option EarthworkCrossSection :=
  match st with
  | some s => some ⟨position, cut, fill, s⟩
  | none => (mkStationLabel position).map fun s => ⟨position, cut, fill, s⟩

/-- The display string produced by the repr hook. -/
def reprStr (e : EarthworkCrossSection) : String :=
  "STA " ++ e._station ++ " cut: " ++ format03f e.cut ++ " sq ft & fill " ++ format03f e.fill ++ " sq ft"

/-- Distance between this cross-section and another. -/
def find_distance_to (e other : EarthworkCrossSection) : ℚ :=
  |other.position - e.position|

/-- Average volume along a distance and between two cross sections. -/
def find_cutfill (distance cross_section_1 cross_section_2 : ℚ) : ℚ :=
  distance * (cross_section_1 + cross_section_2) / (2 * 27)

/-- Cut between this cross-section and another in cubic yards, with a swell
coefficient given as a decimal. -/
def find_cut_to (e other : EarthworkCrossSection) (swell : ℚ) : ℚ :=
  (find_cutfill (e.find_distance_to other) e.cut other.cut) * (1 + swell)

/-- Fill between this cross-section and another in cubic yards, with a shrink
coefficient given as a decimal. -/
def find_fill_to (e other : EarthworkCrossSection) (shrink : ℚ) : ℚ :=
  (find_cutfill (e.find_distance_to other) e.fill other.fill) * (1 + shrink)

/-- Total earthwork between this cross-section and another, in cubic yards:
how much earth must be removed. -/
def find_earthwork_to (e other : EarthworkCrossSection) (shrink swell : ℚ) : ℚ :=
  e.find_cut_to other swell - e.find_fill_to other shrink

end EarthworkCrossSection

/-- The first cross-section built in the demonstration. -/
def sectionA : EarthworkCrossSection := ⟨1100, 350, 0, "11+00"⟩

/-- The second cross-section built in the demonstration. -/
def sectionB : EarthworkCrossSection := ⟨1200, 150, 0, "12+00"⟩

/-- The third cross-section built in the demonstration. -/
def sectionC : EarthworkCrossSection := ⟨1300, 0, 75, "13+00"⟩

/-! ### Helper lemmas -/

lemma roundHalfEven_eq (x : ℚ) (n : Int) (h : x = (n:ℚ)) : roundHalfEven x = n := by
  subst h
  unfold roundHalfEven
  rw [Int.floor_intCast]
  norm_num

lemma mkStationLabel_intCast (p : Int) :
    mkStationLabel (p:ℚ)
      = some (toString ⌊(p:ℚ)/100⌋ ++ "+" ++ format02d ((p:ℚ) - ⌊(p:ℚ)/100⌋ * 100).num) := by
  simp only [mkStationLabel]
  have key : ((p:ℚ) - (⌊(p:ℚ)/100⌋ : Int) * 100).den = 1 := by
    rw [show ((p:ℚ) - (⌊(p:ℚ)/100⌋ : Int) * 100)
        = ((p - 100 * ⌊(p:ℚ)/100⌋ : Int) : ℚ) by push_cast; ring]
    exact Rat.den_intCast _
  rw [if_pos key]

lemma mkStationLabel_half : mkStationLabel (2201/2 : ℚ) = none := by
  have hf : ⌊(2201/2:ℚ)/100⌋ = 11 := by norm_num
  simp only [mkStationLabel, hf]
  norm_num

lemma station_addon_bounds (p : Int) :
    0 ≤ p - 100 * ⌊(p:ℚ)/100⌋ ∧ p - 100 * ⌊(p:ℚ)/100⌋ ≤ 99 := by
  have h1 : ((⌊(p:ℚ)/100⌋ : Int) : ℚ) ≤ (p:ℚ)/100 := Int.floor_le _
  have h2 : (p:ℚ)/100 < (⌊(p:ℚ)/100⌋ : Int) + 1 := Int.lt_floor_add_one _
  rw [le_div_iff₀ (by norm_num : (0:ℚ) < 100)] at h1
  rw [div_lt_iff₀ (by norm_num : (0:ℚ) < 100)] at h2
  constructor
  · have h0 : ((0:Int):ℚ) ≤ ((p - 100 * ⌊(p:ℚ)/100⌋ : Int) : ℚ) := by push_cast; linarith
    exact_mod_cast h0
  · have h3 : ((p - 100 * ⌊(p:ℚ)/100⌋ : Int) : ℚ) < ((100:Int):ℚ) := by push_cast; linarith
    have h4 : (p - 100 * ⌊(p:ℚ)/100⌋ : Int) < 100 := by exact_mod_cast h3
    omega

lemma make_1100 : EarthworkCrossSection.make 1100 350 0 none = some sectionA := by
  have hf : ⌊(1100:ℚ)/100⌋ = 11 := by norm_num
  simp only [EarthworkCrossSection.make, mkStationLabel, hf]
  norm_num
  decide

lemma make_1200 : EarthworkCrossSection.make 1200 150 0 none = some sectionB := by
  have hf : ⌊(1200:ℚ)/100⌋ = 12 := by norm_num
  simp only [EarthworkCrossSection.make, mkStationLabel, hf]
  norm_num
  decide

lemma make_1300 : EarthworkCrossSection.make 1300 0 75 none = some sectionC := by
  have hf : ⌊(1300:ℚ)/100⌋ = 13 := by norm_num
  simp only [EarthworkCrossSection.make, mkStationLabel, hf]
  norm_num
  decide

lemma reprA : sectionA.reprStr = "STA 11+00 cut: 350 sq ft & fill 000 sq ft" := by
  have hc : roundHalfEven (350:ℚ) = 350 := roundHalfEven_eq _ _ (by norm_num)
  have hf : roundHalfEven (0:ℚ) = 0 := roundHalfEven_eq _ _ (by norm_num)
  simp only [EarthworkCrossSection.reprStr, sectionA, format03f, hc, hf]
  decide

lemma distAB : sectionA.find_distance_to sectionB = 100 := by
  simp only [EarthworkCrossSection.find_distance_to, sectionA, sectionB]
  rw [abs_of_nonneg] <;> norm_num

lemma distBC : sectionB.find_distance_to sectionC = 100 := by
  simp only [EarthworkCrossSection.find_distance_to, sectionB, sectionC]
  rw [abs_of_nonneg] <;> norm_num

lemma earthworkAB : sectionA.find_earthwork_to sectionB (1/10) (3/10) = 32500/27 := by
  simp only [EarthworkCrossSection.find_earthwork_to, EarthworkCrossSection.find_cut_to,
    EarthworkCrossSection.find_fill_to, EarthworkCrossSection.find_cutfill, distAB]
  norm_num [sectionA, sectionB]

lemma earthworkBC : sectionB.find_earthwork_to sectionC (1/10) (3/10) = 625/3 := by
  simp only [EarthworkCrossSection.find_earthwork_to, EarthworkCrossSection.find_cut_to,
    EarthworkCrossSection.find_fill_to, EarthworkCrossSection.find_cutfill, distBC]
  norm_num [sectionB, sectionC]

/-! ### The claims -/

/-- Claim C1: the spec asserts that construction and all operations succeed for
every finite real input, with no error path, fractional positions included.
The code contradicts this (and its own declared field types): at the
fractional position 1100.5 the station derivation fails, because the integer
format code of width two is applied to a non-integral addon, which raises a
ValueError in Python.  In the embedding the construction returns none there. -/
theorem C1_fractional_position_fails :
    EarthworkCrossSection.make (2201/2) 0 0 none = none := by
  simp [EarthworkCrossSection.make, mkStationLabel_half]

/-- Claim C2: cut and fill volumes follow the shared average-end-area formula:
cut is distance times the sum of the cut areas over 54 times one plus swell,
fill is the same with fill areas and shrink, both delegate to find_cutfill,
and find_cutfill is distance times the sum of the areas over 54. -/
theorem C2_volume_formulas (a b : EarthworkCrossSection) (swell shrink : ℚ) :
    a.find_cut_to b swell = a.find_distance_to b * (a.cut + b.cut) / 54 * (1 + swell)
    ∧ a.find_fill_to b shrink = a.find_distance_to b * (a.fill + b.fill) / 54 * (1 + shrink)
    ∧ a.find_cut_to b swell
        = EarthworkCrossSection.find_cutfill (a.find_distance_to b) a.cut b.cut * (1 + swell)
    ∧ a.find_fill_to b shrink
        = EarthworkCrossSection.find_cutfill (a.find_distance_to b) a.fill b.fill * (1 + shrink)
    ∧ (∀ d x y : ℚ, EarthworkCrossSection.find_cutfill d x y = d * (x + y) / 54) := by
  refine ⟨?_, ?_, rfl, rfl, fun d x y => ?_⟩
  · simp only [EarthworkCrossSection.find_cut_to, EarthworkCrossSection.find_cutfill]; ring
  · simp only [EarthworkCrossSection.find_fill_to, EarthworkCrossSection.find_cutfill]; ring
  · simp only [EarthworkCrossSection.find_cutfill]; ring

/-- Claim C3, counterexample: the net earthwork from station 11+00 to station
12+00 with shrink one tenth and swell three tenths is 32500 over 27, about
1203.7037 cubic yards, which is nowhere near the claimed 1204.6296: the gap
exceeds nine tenths of a cubic yard. -/
theorem C3_counterexample :
    EarthworkCrossSection.make 1100 350 0 none = some sectionA
    ∧ EarthworkCrossSection.make 1200 150 0 none = some sectionB
    ∧ 9/10 < |sectionA.find_earthwork_to sectionB (1/10) (3/10) - 12046296/10000| := by
  refine ⟨make_1100, make_1200, ?_⟩
  rw [earthworkAB, abs_of_nonpos (by norm_num)]
  norm_num

/-- Claim C3, amended: the net earthwork from station 11+00 to station 12+00
with shrink one tenth and swell three tenths is 32500 over 27, approximately
1203.7037 cubic yards, and the total of the two adjacent net earthworks is
38125 over 27, approximately 1412.0 cubic yards. -/
theorem C3_demonstration_values :
    EarthworkCrossSection.make 1100 350 0 none = some sectionA
    ∧ EarthworkCrossSection.make 1200 150 0 none = some sectionB
    ∧ EarthworkCrossSection.make 1300 0 75 none = some sectionC
    ∧ sectionA.find_earthwork_to sectionB (1/10) (3/10) = 32500/27
    ∧ |sectionA.find_earthwork_to sectionB (1/10) (3/10) - 12037037/10000| < 1/10000
    ∧ sectionA.find_earthwork_to sectionB (1/10) (3/10)
        + sectionB.find_earthwork_to sectionC (1/10) (3/10) = 38125/27
    ∧ |sectionA.find_earthwork_to sectionB (1/10) (3/10)
        + sectionB.find_earthwork_to sectionC (1/10) (3/10) - 1412| < 5/100 := by
  refine ⟨make_1100, make_1200, make_1300, earthworkAB, ?_, ?_, ?_⟩
  · rw [earthworkAB, abs_of_nonneg (by norm_num)]; norm_num
  · rw [earthworkAB, earthworkBC]; norm_num
  · rw [earthworkAB, earthworkBC, abs_of_nonneg (by norm_num)]; norm_num

/-- Claim C4, counterexample: with both cut areas non-negative, a swell
coefficient below minus one makes the cut volume negative: the two
demonstration sections with swell minus two give a negative result, so the
claimed sign guarantee does not hold for every swell coefficient. -/
theorem C4_counterexample :
    0 ≤ sectionA.cut ∧ 0 ≤ sectionB.cut ∧ sectionA.find_cut_to sectionB (-2) < 0 := by
  refine ⟨by norm_num [sectionA], by norm_num [sectionB], ?_⟩
  simp only [EarthworkCrossSection.find_cut_to, EarthworkCrossSection.find_cutfill, distAB]
  norm_num [sectionA, sectionB]

/-- Claim C4, amended: for cross-sections with non-negative cut areas and a
swell coefficient of at least minus one, the cut volume is non-negative. -/
theorem C4_cut_nonneg (a b : EarthworkCrossSection) (swell : ℚ)
    (h1 : 0 ≤ a.cut) (h2 : 0 ≤ b.cut) (h3 : -1 ≤ swell) :
    0 ≤ a.find_cut_to b swell := by
  simp only [EarthworkCrossSection.find_cut_to, EarthworkCrossSection.find_cutfill,
    EarthworkCrossSection.find_distance_to]
  apply mul_nonneg
  · apply div_nonneg
    · exact mul_nonneg (abs_nonneg _) (add_nonneg h1 h2)
    · norm_num
  · linarith

/-- Claim C4, witness: the amended statement applied to the demonstration
sections with swell one tenth. -/
theorem C4_cut_nonneg_witness : 0 ≤ sectionA.find_cut_to sectionB (1/10) :=
  C4_cut_nonneg sectionA sectionB (1/10) (by norm_num [sectionA]) (by norm_num [sectionB])
    (by norm_num)

/-- Claim C5: an explicitly supplied station label is stored exactly as given
and the derivation from position is skipped entirely, even at a position
where the derivation itself would fail; when the label is omitted it is the
one derived from position at construction. -/
theorem C5_explicit_station (p c f : ℚ) (s : String) :
    EarthworkCrossSection.make p c f (some s) = some ⟨p, c, f, s⟩
    ∧ EarthworkCrossSection.make p c f none
        = (mkStationLabel p).map (fun lbl => ⟨p, c, f, lbl⟩)
    ∧ EarthworkCrossSection.make (2201/2) c f (some s) = some ⟨2201/2, c, f, s⟩
    ∧ mkStationLabel (2201/2 : ℚ) = none :=
  ⟨rfl, rfl, rfl, mkStationLabel_half⟩

/-- Claim C6: a cross-section constructed without an explicit label carries
the derived label, the floor of position over one hundred, a plus sign, and
the remaining addon zero-padded to two digits; its display string is the STA
line with cut and fill rounded to integers and zero-padded to three digits;
in particular the first demonstration section displays as
STA 11+00 cut: 350 sq ft and fill 000 sq ft (with an ampersand). -/
theorem C6_station_and_display (p c f : ℚ) (e : EarthworkCrossSection)
    (h : EarthworkCrossSection.make p c f none = some e) :
    e._station = toString ⌊p/100⌋ ++ "+" ++ zeroPad 2 ((p - ⌊p/100⌋ * 100).num)
    ∧ e.reprStr = "STA " ++ e._station ++ " cut: " ++ zeroPad 3 (roundHalfEven e.cut)
        ++ " sq ft & fill " ++ zeroPad 3 (roundHalfEven e.fill) ++ " sq ft"
    ∧ (p = 1100 → c = 350 → f = 0 →
        e.reprStr = "STA 11+00 cut: 350 sq ft & fill 000 sq ft") := by
  have h3 : p = 1100 → c = 350 → f = 0 →
      e.reprStr = "STA 11+00 cut: 350 sq ft & fill 000 sq ft" := by
    intro hp hc hf
    subst hp; subst hc; subst hf
    rw [make_1100] at h
    obtain rfl := Option.some.inj h
    exact reprA
  simp only [EarthworkCrossSection.make, Option.map_eq_some'] at h
  obtain ⟨lbl, hlbl, rfl⟩ := h
  simp only [mkStationLabel] at hlbl
  split at hlbl
  · obtain rfl := Option.some.inj hlbl
    exact ⟨rfl, rfl, h3⟩
  · exact absurd hlbl (by simp)

/-- Claim C6, witness: the station and display facts evaluated at the first
demonstration section. -/
theorem C6_station_and_display_witness :
    sectionA.reprStr = "STA 11+00 cut: 350 sq ft & fill 000 sq ft" :=
  (C6_station_and_display 1100 350 0 sectionA make_1100).2.2 rfl rfl rfl

/-- Claim C7: net earthwork is the cut volume minus the fill volume, and it is
positive exactly when the cut volume exceeds the fill volume, negative
meaning net material must be imported. -/
theorem C7_earthwork_difference (a b : EarthworkCrossSection) (shrink swell : ℚ) :
    a.find_earthwork_to b shrink swell = a.find_cut_to b swell - a.find_fill_to b shrink
    ∧ (0 < a.find_earthwork_to b shrink swell
        ↔ a.find_fill_to b shrink < a.find_cut_to b swell) := by
  refine ⟨rfl, ?_⟩
  simp only [EarthworkCrossSection.find_earthwork_to]
  exact sub_pos

/-- Claim C8: the distance between two cross-sections is the absolute value of
the difference of their positions, hence non-negative and symmetric. -/
theorem C8_distance_abs (a b : EarthworkCrossSection) :
    a.find_distance_to b = |b.position - a.position|
    ∧ 0 ≤ a.find_distance_to b
    ∧ a.find_distance_to b = b.find_distance_to a := by
  refine ⟨rfl, abs_nonneg _, ?_⟩
  simp only [EarthworkCrossSection.find_distance_to]
  exact abs_sub_comm _ _

/-- Claim C9: the average-end-area primitive is symmetric in its two area
arguments, and consequently the cut, fill and net earthwork computations are
all symmetric under swapping the two cross-sections. -/
theorem C9_symmetry (a b : EarthworkCrossSection) (swell shrink : ℚ) :
    (∀ d x y : ℚ, EarthworkCrossSection.find_cutfill d x y
        = EarthworkCrossSection.find_cutfill d y x)
    ∧ a.find_cut_to b swell = b.find_cut_to a swell
    ∧ a.find_fill_to b shrink = b.find_fill_to a shrink
    ∧ a.find_earthwork_to b shrink swell = b.find_earthwork_to a shrink swell := by
  have hd : a.find_distance_to b = b.find_distance_to a := by
    simp only [EarthworkCrossSection.find_distance_to]
    exact abs_sub_comm _ _
  refine ⟨fun d x y => ?_, ?_, ?_, ?_⟩
  · simp only [EarthworkCrossSection.find_cutfill]; ring
  · simp only [EarthworkCrossSection.find_cut_to, EarthworkCrossSection.find_cutfill, hd]; ring
  · simp only [EarthworkCrossSection.find_fill_to, EarthworkCrossSection.find_cutfill, hd]; ring
  · simp only [EarthworkCrossSection.find_earthwork_to, EarthworkCrossSection.find_cut_to,
      EarthworkCrossSection.find_fill_to, EarthworkCrossSection.find_cutfill, hd]; ring

/-- Claim C10: for every integer position, negative ones included,
construction without an explicit label succeeds, the label is the floor of
position over one hundred followed by a plus sign and the zero-padded addon,
the addon always lies between 0 and 99 because the major part is a floor and
not a truncation toward zero, and position minus fifty yields -1+50. -/
theorem C10_integer_positions (p : Int) (c f : ℚ) :
    EarthworkCrossSection.make (p:ℚ) c f none
      = some ⟨(p:ℚ), c, f, toString ⌊(p:ℚ)/100⌋ ++ "+" ++ zeroPad 2 (p - 100 * ⌊(p:ℚ)/100⌋)⟩
    ∧ 0 ≤ p - 100 * ⌊(p:ℚ)/100⌋
    ∧ p - 100 * ⌊(p:ℚ)/100⌋ ≤ 99
    ∧ (p = -50 →
        EarthworkCrossSection.make (p:ℚ) c f none = some ⟨(p:ℚ), c, f, "-1+50"⟩) := by
  have hmk : mkStationLabel (p:ℚ)
      = some (toString ⌊(p:ℚ)/100⌋ ++ "+" ++ zeroPad 2 (p - 100 * ⌊(p:ℚ)/100⌋)) := by
    rw [mkStationLabel_intCast p,
      show ((p:ℚ) - (⌊(p:ℚ)/100⌋ : Int) * 100) = ((p - 100 * ⌊(p:ℚ)/100⌋ : Int) : ℚ) by
        push_cast; ring,
      Rat.num_intCast]
    rfl
  have hmake : EarthworkCrossSection.make (p:ℚ) c f none
      = some ⟨(p:ℚ), c, f, toString ⌊(p:ℚ)/100⌋ ++ "+" ++ zeroPad 2 (p - 100 * ⌊(p:ℚ)/100⌋)⟩ := by
    simp only [EarthworkCrossSection.make, hmk, Option.map_some']
  refine ⟨hmake, (station_addon_bounds p).1, (station_addon_bounds p).2, ?_⟩
  intro hp
  subst hp
  rw [hmake]
  have hf : ⌊((-50 : Int):ℚ)/100⌋ = -1 := by push_cast; norm_num
  rw [hf]
  norm_num
  decide

/-- Claim C10, witness: the integer-position statement evaluated at position
minus fifty. -/
theorem C10_integer_positions_witness :
    EarthworkCrossSection.make ((-50 : Int):ℚ) 0 0 none
      = some ⟨((-50 : Int):ℚ), 0, 0, "-1+50"⟩ :=
  (C10_integer_positions (-50) 0 0).2.2.2 rfl
